import Mathlib

/-!
Shallow embedding of the HMCP auth core (token lifecycle and authorization
decision engine) from `src/hmcp/auth` and `src/hmcp/mcpserver/fastmcp_auth.py`.

Conventions used throughout:
* Python `Optional[str]` becomes `Option String`; Python truthiness of an
  optional string (`if patient_id:` is false both for `None` and for `""`)
  is the predicate `pyTruthy`.
* `str.split()` (split on whitespace runs, dropping empty pieces) is
  `pySplit`; `str.split(' ')` (split on single spaces, keeping empty
  pieces) is `strSplitOnSpace`.  These and the other string helpers are
  written over `String.data` character lists by structural recursion.
* Python dicts keyed by strings become association lists with
  last-write-wins insertion (`dictInsert`).
* A JWT is modelled structurally: a signed token records the key and
  algorithm it was signed with together with its claim set, and anything
  that does not decode is `Token.malformed`.  `pyjwt.decode` is modelled by
  `jwtDecode`, which checks signature (key/algorithm match), then expiry,
  then audience, mirroring PyJWT's validation order.
* Wall-clock instants are natural numbers (seconds); `datetime.utcnow()`
  becomes an explicit `now : Nat` argument.
-/

deriving instance DecidableEq for Except

namespace HMCP

/-- Python truthiness of an optional string: `None` and `""` are falsy. -/
def pyTruthy : Option String → Bool
  | none => false
  | some s => s ≠ ""

/-- Split a character list at every character satisfying `p`, keeping empty
pieces (the accumulator holds the current piece, reversed). -/
def splitCharsAux (p : Char → Bool) : List Char → List Char → List (List Char)
  | [], acc => [acc.reverse]
  | c :: cs, acc =>
    if p c then acc.reverse :: splitCharsAux p cs []
    else splitCharsAux p cs (c :: acc)

/-- Python `s.startswith(pre)`. -/
def strStartsWith (s pre : String) : Bool :=
  pre.data.isPrefixOf s.data

/-- Python `s[n:]` (drop the first `n` code points). -/
def strDrop (s : String) (n : Nat) : String :=
  String.mk (s.data.drop n)

/-- Python `s.split(' ')`: split at every single space, keeping empty
pieces. -/
def strSplitOnSpace (s : String) : List String :=
  (splitCharsAux (fun c => c = ' ') s.data []).map String.mk

/-- Python `s.split()`: split on whitespace, dropping empty pieces. -/
def pySplit (s : String) : List String :=
  ((splitCharsAux (fun c => c.isWhitespace) s.data []).map String.mk).filter
    (fun p => p ≠ "")

/-- Last-write-wins insertion into an association list, as Python dict
assignment `d[k] = v`: overwrite in place if the key exists, else append. -/
def dictInsert {α : Type} (m : List (String × α)) (k : String) (v : α) :
    List (String × α) :=
  if (m.lookup k).isSome then
    m.map (fun kv => if kv.1 = k then (k, v) else kv)
  else
    m ++ [(k, v)]

/-- One entry of `AuthConfig.ALLOWED_CLIENTS`: the client's secret and its
required scopes (`{"secret": ..., "scopes": [...]}` in `config.py`). -/
structure ClientEntry where
  secret : String
  scopes : List String
deriving DecidableEq, Repr

/-- `AuthConfig` from `src/hmcp/auth/config.py`. -/
structure AuthConfig where
  JWT_SECRET_KEY : String
  JWT_ALGORITHM : String
  TOKEN_EXPIRY_HOURS : Nat
  ISSUER : String
  JWT_AUDIENCE : String
  OAUTH_TOKEN_URL : String
  OAUTH_SCOPES : List String
  ALLOWED_CLIENTS : List (String × ClientEntry)
deriving DecidableEq, Repr

/-- The default field values of `AuthConfig` in `config.py`. -/
def defaultAuthConfig : AuthConfig where
  JWT_SECRET_KEY := "your-secure-jwt-secret"
  JWT_ALGORITHM := "HS256"
  TOKEN_EXPIRY_HOURS := 1
  ISSUER := "HMCP_Server"
  JWT_AUDIENCE := "https://hmcp-server.example.com"
  OAUTH_TOKEN_URL := "/oauth/token"
  OAUTH_SCOPES :=
    ["hmcp:access", "hmcp:read", "hmcp:write", "patient/hmcp:read",
     "patient/hmcp:write", "openid", "profile", "launch/patient",
     "offline_access"]
  ALLOWED_CLIENTS :=
    [("test-client", { secret := "test-secret", scopes := ["hmcp:access"] })]

/-- The claim set carried by an issued token (`payload` in
`JWTHandler.generate_token`).  `patient` is `none` when the claim is absent. -/
structure TokenClaims where
  iss : String
  sub : String
  aud : String
  iat : Nat
  exp : Nat
  scope : String
  patient : Option String
deriving DecidableEq, Repr

/-- A wire token: either a well-formed signed token (`pyjwt.encode` output,
recording the signing key, the algorithm and the claims), or an arbitrary
string that does not decode. -/
inductive Token where
  | signed (key : String) (alg : String) (payload : TokenClaims)
  | malformed (raw : String)
deriving DecidableEq, Repr

/-- The reasons `pyjwt.decode` can fail that `verify_token` distinguishes. -/
inductive DecodeError where
  | expiredSignature
  | invalidAudience
  | invalidToken
deriving DecidableEq, Repr

/-- `pyjwt.encode(payload, key, algorithm)`. -/
def jwtEncode (payload : TokenClaims) (key alg : String) : Token :=
  .signed key alg payload

/-- `pyjwt.decode(token, key, algorithms, audience)` at instant `now`:
signature/structure check first, then expiry, then audience (PyJWT
validates `exp` before `aud`).  A token is expired at any instant at or
after its `exp` claim. -/
def jwtDecode (tok : Token) (key : String) (algs : List String)
    (audience : String) (now : Nat) : Except DecodeError TokenClaims :=
  match tok with
  | .malformed _ => .error .invalidToken
  | .signed k a p =>
    if k ≠ key ∨ a ∉ algs then .error .invalidToken
    else if p.exp ≤ now then .error .expiredSignature
    else if p.aud ≠ audience then .error .invalidAudience
    else .ok p

/-- The two exception kinds raised by the auth core
(`src/hmcp/auth/exceptions.py`), each carrying its message. -/
inductive AuthError where
  | clientValidationError (msg : String)
  | invalidTokenError (msg : String)
deriving DecidableEq, Repr

/-- `JWTHandler` state: its config and the `blacklisted_tokens` set
(the Revocation Set). -/
structure JWTHandler where
  config : AuthConfig
  blacklisted_tokens : List Token
deriving DecidableEq, Repr

/-- `JWTHandler.__init__`: empty revocation set. -/
def JWTHandler.init (config : AuthConfig) : JWTHandler :=
  { config := config, blacklisted_tokens := [] }

/-- `JWTHandler.generate_token(client_id, scope, patient_id)` at instant
`now`.  Rejects a `client_id` outside `config.ALLOWED_CLIENTS`; adds the
`patient` claim only when `patient_id` is truthy and some whitespace-split
piece of `scope` starts with `"patient/"`. -/
def generate_token (h : JWTHandler) (now : Nat) (client_id scope : String)
    (patient_id : Option String) : Except AuthError Token :=
  if (h.config.ALLOWED_CLIENTS.lookup client_id).isNone then
    .error (.clientValidationError ("Client " ++ client_id ++ " is not registered"))
  else
    let payload : TokenClaims :=
      { iss := h.config.ISSUER
        sub := client_id
        aud := h.config.JWT_AUDIENCE
        iat := now
        exp := now + h.config.TOKEN_EXPIRY_HOURS * 3600
        scope := scope
        patient :=
          if pyTruthy patient_id &&
              (pySplit scope).any (fun s => strStartsWith s "patient/") then
            patient_id
          else none }
    .ok (jwtEncode payload h.config.JWT_SECRET_KEY h.config.JWT_ALGORITHM)

/-- `JWTHandler.verify_token(token)` at instant `now`.  The revocation check
comes first; the revocation failure is raised as the project's own
`InvalidTokenError`, which is not caught by the three `except pyjwt...`
clauses but by the final `except Exception`, so it is re-wrapped as
`InvalidTokenError("Token verification failed: Token has been revoked")`. -/
def verify_token (h : JWTHandler) (now : Nat) (token : Token) :
    Except AuthError TokenClaims :=
  if token ∈ h.blacklisted_tokens then
    .error (.invalidTokenError "Token verification failed: Token has been revoked")
  else
    match jwtDecode token h.config.JWT_SECRET_KEY [h.config.JWT_ALGORITHM]
        h.config.JWT_AUDIENCE now with
    | .ok p => .ok p
    | .error .expiredSignature => .error (.invalidTokenError "Token has expired")
    | .error .invalidAudience => .error (.invalidTokenError "Invalid token audience")
    | .error .invalidToken => .error (.invalidTokenError "Invalid token")

/-- Modelled from the spec: no `revoke` operation exists under `src/` (only
the `blacklisted_tokens` set and its membership check in `verify_token`);
§4.4 of the spec says `revoke(token)` "adds to the Revocation Set;
idempotent". -/
def revoke (h : JWTHandler) (token : Token) : JWTHandler :=
  if token ∈ h.blacklisted_tokens then h
  else { h with blacklisted_tokens := token :: h.blacklisted_tokens }

/-- `utils.validate_scope(required_scope, token_scope)`. -/
def validate_scope (required_scope token_scope : String) : Bool :=
  (pySplit token_scope).contains required_scope

/-- `utils.parse_auth_header(auth_header)`: requires the literal prefix
`"Bearer "` and returns `auth_header.split(' ')[1]`; otherwise raises
`ValueError("Invalid Authorization header")`. -/
def parse_auth_header (auth_header : String) : Except String String :=
  if ¬ strStartsWith auth_header "Bearer " then
    .error "Invalid Authorization header"
  else
    .ok ((strSplitOnSpace auth_header).getD 1 "")

/-- The loop body of `utils.analyze_scopes`, acting on the accumulator
`(resource_scopes, has_patient_context, has_openid)`: `"openid"` sets the
OpenID flag; a `"patient/"` prefix sets the patient flag and the suffix
after the 8-character prefix joins the resource scopes; any other scope
outside `{"profile","offline_access","launch/patient"}` joins verbatim.
After the loop, `analyze_scopes` runs a fixup forcing the patient flag
when `"launch/patient"` is present. -/
def analyzeScopesStep (acc : Finset String × Bool × Bool) (scope : String) :
    Finset String × Bool × Bool :=
  if scope = "openid" then
    (acc.1, acc.2.1, true)
  else if strStartsWith scope "patient/" then
    (insert (strDrop scope 8) acc.1, true, acc.2.2)
  else if scope = "profile" ∨ scope = "offline_access" ∨ scope = "launch/patient" then
    acc
  else
    (insert scope acc.1, acc.2.1, acc.2.2)

/-- The full `analyze_scopes`: the loop above starting from
`(set(), False, False)`, then the `launch/patient` fixup. -/
def analyze_scopes (scopes : List String) : Finset String × Bool × Bool :=
  let r := scopes.foldl analyzeScopesStep (∅, false, false)
  (r.1, r.2.1 || scopes.contains "launch/patient", r.2.2)

/-- `utils.requires_patient_context(scopes)`. -/
def requires_patient_context (scopes : List String) : Bool :=
  scopes.any (fun scope => strStartsWith scope "patient/") ||
    scopes.contains "launch/patient"

/-- One record of `OAuthServer.oauth_clients` as written by
`register_client`. -/
structure ClientRecord where
  secret : String
  created_at : Nat
  redirect_uris : List String
  allowed_scopes : List String
deriving DecidableEq, Repr

/-- `OAuthServer` state: config, its `JWTHandler`, and the `oauth_clients`
registry populated by `register_client`. -/
structure OAuthServer where
  config : AuthConfig
  jwt_handler : JWTHandler
  oauth_clients : List (String × ClientRecord)
deriving DecidableEq, Repr

/-- `OAuthServer.__init__`. -/
def OAuthServer.init (config : AuthConfig) : OAuthServer :=
  { config := config, jwt_handler := JWTHandler.init config, oauth_clients := [] }

/-- Python `xs or default` for an optional list argument: `None` and the
empty list are falsy, so both select the default. -/
def pyListOr (x : Option (List String)) (default : List String) : List String :=
  match x with
  | none => default
  | some [] => default
  | some l => l

/-- `OAuthServer.register_client(client_id, client_secret, redirect_uris,
allowed_scopes)` at instant `now` (`created_at = datetime.utcnow()`). -/
def register_client (s : OAuthServer) (now : Nat) (client_id client_secret : String)
    (redirect_uris allowed_scopes : Option (List String)) : OAuthServer :=
  { s with
    oauth_clients :=
      dictInsert s.oauth_clients client_id
        { secret := client_secret
          created_at := now
          redirect_uris := pyListOr redirect_uris []
          allowed_scopes := pyListOr allowed_scopes ["hmcp:access"] } }

/-- `OAuthServer.validate_client(client_id, client_secret)`: raises
`ClientValidationError("Invalid client ID")` for an unknown client, else
returns the boolean of an exact secret comparison. -/
def validate_client (s : OAuthServer) (client_id client_secret : String) :
    Except AuthError Bool :=
  match s.oauth_clients.lookup client_id with
  | none => .error (.clientValidationError "Invalid client ID")
  | some r => .ok (r.secret = client_secret)

/-- The token response built by `OAuthServer.create_token`. -/
structure TokenResponse where
  access_token : Token
  token_type : String
  expires_in : Nat
  scope : String
  patient : Option String
deriving DecidableEq, Repr

/-- `OAuthServer.create_token(client_id, scope, patient_id)` at instant
`now`: delegates to `generate_token` (whose `ClientValidationError`
propagates) and adds `patient` to the response when `patient_id` is
truthy. -/
def create_token (s : OAuthServer) (now : Nat) (client_id scope : String)
    (patient_id : Option String) : Except AuthError TokenResponse :=
  match generate_token s.jwt_handler now client_id scope patient_id with
  | .error e => .error e
  | .ok token =>
    .ok { access_token := token
          token_type := "Bearer"
          expires_in := s.config.TOKEN_EXPIRY_HOURS * 3600
          scope := scope
          patient := if pyTruthy patient_id then patient_id else none }

/-- The token-response dict as seen by `OAuthClient.set_token`: the three
keys the client reads, each `none` when absent from the dict. -/
structure ClientTokenResponse where
  access_token : Option String
  id_token : Option String
  patient : Option String
deriving DecidableEq, Repr

/-- `OAuthClient` cache state (credentials plus the four mutable fields set
in `__init__`). -/
structure OAuthClient where
  client_id : String
  client_secret : String
  access_token : Option String
  id_token : Option String
  token_response : Option ClientTokenResponse
  patient_id : Option String
deriving DecidableEq, Repr

/-- Result of `OAuthClient.set_token`: the state after the call and whether
a `KeyError` on `'access_token'` was raised. -/
structure SetTokenOutcome where
  state : OAuthClient
  raised : Bool
deriving DecidableEq, Repr

/-- `OAuthClient.set_token(token_response)`: stores the full response
first, then reads `token_response['access_token']` (a `KeyError` when the
key is absent, leaving the earlier assignment in place), then the optional
`id_token` and `patient` keys. -/
def set_token (c : OAuthClient) (token_response : ClientTokenResponse) :
    SetTokenOutcome :=
  let c1 := { c with token_response := some token_response }
  match token_response.access_token with
  | none => { state := c1, raised := true }
  | some tok =>
    let c2 := { c1 with access_token := some tok }
    let c3 :=
      match token_response.id_token with
      | some idt => { c2 with id_token := some idt }
      | none => c2
    let c4 :=
      match token_response.patient with
      | some p => { c3 with patient_id := some p }
      | none => c3
    { state := c4, raised := false }

/-- `OAuthClient.get_auth_header()`: fails with
`AuthenticationError("Not authenticated")` when no truthy access token is
stored. -/
def get_auth_header (c : OAuthClient) : Except String String :=
  if ¬ pyTruthy c.access_token then .error "Not authenticated"
  else .ok ("Bearer " ++ c.access_token.getD "")

/-- An incoming request as the middleware sees it: its path and its
optional `Authorization` header. -/
structure Request where
  path : String
  authorization : Option String
deriving DecidableEq, Repr

/-- Terminal outcome of `AuthMiddleware.dispatch`: the request is forwarded
unauthenticated (issuance-endpoint bypass), forwarded with the
authenticated identity attached to the request state, or answered with a
JSON error body and a status code. -/
inductive Outcome where
  | next
  | allow (client_id : String) (scopes : List String) (patient_id : Option String)
  | deny (error : String) (status : Nat)
deriving DecidableEq, Repr

/-- `AuthMiddleware.dispatch(request)`.  The middleware holds a
`JWTHandler` and calls its `verify_token` on the parsed bearer string;
since wire tokens are opaque strings, the handler enters this model as the
verification function `verify` it provides on them.  Steps, in source
order: issuance-endpoint bypass; missing-header 401; header parse
(`ValueError` lands in the final generic handler, 401); token verification
(`InvalidTokenError` → 401); `sub` must be truthy and in
`ALLOWED_CLIENTS` (else 401); every configured required scope must be in
the token's split scope list (else 403); a `"patient/"`-scoped token must
carry a truthy `patient` claim (else 403); on success the identity is
attached, the patient id only when truthy. -/
def dispatch (cfg : AuthConfig) (verify : String → Except AuthError TokenClaims)
    (req : Request) : Outcome :=
  if req.path = cfg.OAUTH_TOKEN_URL then .next
  else
    match req.authorization with
    | none => .deny "No authorization header provided" 401
    | some auth_header =>
      match parse_auth_header auth_header with
      | .error e => .deny ("Authentication failed: " ++ e) 401
      | .ok token =>
        match verify token with
        | .error (.invalidTokenError msg) =>
          .deny ("Authentication failed: " ++ msg) 401
        | .error (.clientValidationError msg) =>
          .deny ("Authentication failed: " ++ msg) 401
        | .ok payload =>
          let client_id := payload.sub
          if client_id = "" ∨ (cfg.ALLOWED_CLIENTS.lookup client_id).isNone then
            .deny "Invalid client ID" 401
          else
            match cfg.ALLOWED_CLIENTS.lookup client_id with
            | none => .deny "Invalid client ID" 401
            | some entry =>
              let token_scopes := pySplit payload.scope
              let required_scopes := entry.scopes
              if ¬ required_scopes.all (fun s => token_scopes.contains s) then
                .deny "Insufficient scope" 403
              else
                let patient_id := payload.patient
                let has_patient_scopes :=
                  token_scopes.any (fun s => strStartsWith s "patient/")
                if has_patient_scopes && ¬ pyTruthy patient_id then
                  .deny "Patient-context scopes require patient ID" 403
                else
                  .allow client_id token_scopes
                    (if pyTruthy patient_id then patient_id else none)

/-! ## Helper lemmas -/

/-- The patient-context component of one `analyze_scopes` loop step: the
flag is kept and additionally set exactly when the scope has the
`"patient/"` prefix. -/
theorem analyzeScopesStep_patient_flag (acc : Finset String × Bool × Bool)
    (scope : String) :
    (analyzeScopesStep acc scope).2.1 =
      (acc.2.1 || strStartsWith scope "patient/") := by
  unfold analyzeScopesStep
  split
  · next h =>
    subst h
    simp [show strStartsWith "openid" "patient/" = false from by decide]
  · split
    · next h => simp [h]
    · split
      · next h h' _ =>
        simp [Bool.not_eq_true] at h'
        simp [h']
      · next h h' _ =>
        simp [Bool.not_eq_true] at h'
        simp [h']

/-- The patient-context component of the `analyze_scopes` loop over a whole
scope list. -/
theorem foldl_analyzeScopesStep_patient_flag (scopes : List String)
    (acc : Finset String × Bool × Bool) :
    (scopes.foldl analyzeScopesStep acc).2.1 =
      (acc.2.1 || scopes.any (fun s => strStartsWith s "patient/")) := by
  induction scopes generalizing acc with
  | nil => simp
  | cons s t ih =>
    simp only [List.foldl_cons, List.any_cons]
    rw [ih, analyzeScopesStep_patient_flag, Bool.or_assoc]

/-! ## Claim theorems -/

/-- C7: for every list of scope strings, `requires_patient_context(scopes)`
returns true exactly when the `has_patient_context` component of
`analyze_scopes(scopes)` is true — the two entry points are behaviorally
identical patient-context predicates. -/
theorem requires_patient_context_eq_analyze_scopes (scopes : List String) :
    requires_patient_context scopes = (analyze_scopes scopes).2.1 := by
  simp only [analyze_scopes, requires_patient_context]
  rw [foldl_analyzeScopesStep_patient_flag, Bool.false_or]

/-- C4: a token in the Revocation Set (`blacklisted_tokens`) makes
`verify_token` fail with the revocation error at every instant and for
every token — in particular for tokens whose signature, expiry and
audience would all pass, and at instants before expiry — because the
membership check precedes the `pyjwt.decode` call; and revocation is
sticky: after `revoke(tok)`, `verify(tok)` fails with the revocation error
at every instant. -/
theorem revocation_precedes_checks_and_is_sticky (h : JWTHandler)
    (token : Token) (now : Nat) (hrev : token ∈ h.blacklisted_tokens) :
    verify_token h now token =
      .error (.invalidTokenError
        "Token verification failed: Token has been revoked") ∧
    ∀ (h' : JWTHandler) (now' : Nat),
      verify_token (revoke h' token) now' token =
        .error (.invalidTokenError
          "Token verification failed: Token has been revoked") := by
  constructor
  · simp [verify_token, hrev]
  · intro h' now'
    have hmem : token ∈ (revoke h' token).blacklisted_tokens := by
      unfold revoke
      split
      · assumption
      · simp
    simp [verify_token, hmem]

/-- C4 witness: a concrete revoked token — one that would otherwise decode
successfully at instant 0 — is rejected with the revocation error, both
when it sits in the set directly and after `revoke` on a fresh handler. -/
theorem revocation_precedes_checks_and_is_sticky_witness :
    verify_token
        { config := defaultAuthConfig
          blacklisted_tokens :=
            [.signed "your-secure-jwt-secret" "HS256"
              { iss := "HMCP_Server", sub := "test-client"
                aud := "https://hmcp-server.example.com", iat := 0
                exp := 3600, scope := "hmcp:access", patient := none }] } 0
        (.signed "your-secure-jwt-secret" "HS256"
          { iss := "HMCP_Server", sub := "test-client"
            aud := "https://hmcp-server.example.com", iat := 0
            exp := 3600, scope := "hmcp:access", patient := none }) =
      .error (.invalidTokenError
        "Token verification failed: Token has been revoked") ∧
    verify_token
        (revoke (JWTHandler.init defaultAuthConfig)
          (.signed "your-secure-jwt-secret" "HS256"
            { iss := "HMCP_Server", sub := "test-client"
              aud := "https://hmcp-server.example.com", iat := 0
              exp := 3600, scope := "hmcp:access", patient := none })) 0
        (.signed "your-secure-jwt-secret" "HS256"
          { iss := "HMCP_Server", sub := "test-client"
            aud := "https://hmcp-server.example.com", iat := 0
            exp := 3600, scope := "hmcp:access", patient := none }) =
      .error (.invalidTokenError
        "Token verification failed: Token has been revoked") :=
  ⟨(revocation_precedes_checks_and_is_sticky _ _ 0 (by decide)).1,
   (revocation_precedes_checks_and_is_sticky
      { config := defaultAuthConfig
        blacklisted_tokens :=
          [.signed "your-secure-jwt-secret" "HS256"
            { iss := "HMCP_Server", sub := "test-client"
              aud := "https://hmcp-server.example.com", iat := 0
              exp := 3600, scope := "hmcp:access", patient := none }] }
      _ 0 (by decide)).2 (JWTHandler.init defaultAuthConfig) 0⟩

/-- C10: `set_token` on a response without the `access_token` key raises,
but only after `token_response` has been overwritten; `access_token`,
`id_token` and `patient_id` keep their previous values, leaving the cache
in a mixed state. -/
theorem set_token_failure_not_atomic (c : OAuthClient)
    (tr : ClientTokenResponse) (habs : tr.access_token = none) :
    set_token c tr =
      { state := { c with token_response := some tr }, raised := true } := by
  simp [set_token, habs]

/-- C10 witness: a concrete cache holding an earlier token, fed a response
lacking `access_token`: the call raises, `token_response` is replaced, and
the other three fields still hold their old values. -/
theorem set_token_failure_not_atomic_witness :
    set_token
        { client_id := "c1", client_secret := "s1"
          access_token := some "oldtok", id_token := some "oldid"
          token_response := none, patient_id := some "oldpat" }
        { access_token := none, id_token := some "newid"
          patient := some "newpat" } =
      { state :=
          { client_id := "c1", client_secret := "s1"
            access_token := some "oldtok", id_token := some "oldid"
            token_response :=
              some { access_token := none, id_token := some "newid"
                     patient := some "newpat" }
            patient_id := some "oldpat" }
        raised := true } :=
  set_token_failure_not_atomic
    { client_id := "c1", client_secret := "s1"
      access_token := some "oldtok", id_token := some "oldid"
      token_response := none, patient_id := some "oldpat" }
    { access_token := none, id_token := some "newid", patient := some "newpat" }
    rfl

/-- C3 counterexample: the claim says the patient claim is present when a
patient identifier is supplied and a requested scope equals
`"launch/patient"`; but at `("test-client", "launch/patient", "p123")` the
issued token carries no patient claim — `generate_token` tests only the
`"patient/"` prefix, so `"launch/patient"` alone never triggers the
claim. -/
theorem patient_claim_launch_patient_cex :
    (some "p123" : Option String) ≠ none ∧
    (pySplit "launch/patient").contains "launch/patient" = true ∧
    generate_token (JWTHandler.init defaultAuthConfig) 0 "test-client"
        "launch/patient" (some "p123") =
      .ok (.signed "your-secure-jwt-secret" "HS256"
        { iss := "HMCP_Server", sub := "test-client"
          aud := "https://hmcp-server.example.com", iat := 0, exp := 3600
          scope := "launch/patient", patient := none }) := by
  refine ⟨by decide, by decide, by decide⟩

/-- C3 amended: for every successful issuance, the patient claim is present
in the issued token's claim set if and only if at least one
whitespace-split piece of the requested scope string begins with
`"patient/"` (a scope equal to `"launch/patient"` does not count) AND a
non-empty patient identifier was supplied; and when present it equals the
supplied identifier. -/
theorem patient_claim_present_iff (h : JWTHandler) (now : Nat)
    (cid scope : String) (pid : Option String) (key alg : String)
    (payload : TokenClaims)
    (hok : generate_token h now cid scope pid = .ok (.signed key alg payload)) :
    payload.patient.isSome =
      (pyTruthy pid &&
        (pySplit scope).any (fun s => strStartsWith s "patient/")) ∧
    (payload.patient.isSome = true → payload.patient = pid) := by
  unfold generate_token at hok
  split at hok
  · exact absurd hok (by simp)
  · simp only [jwtEncode, Except.ok.injEq, Token.signed.injEq] at hok
    obtain ⟨-, -, rfl⟩ := hok
    by_cases hc : (pyTruthy pid &&
        (pySplit scope).any (fun s => strStartsWith s "patient/")) = true
    · constructor
      · cases pid with
        | none => simp [pyTruthy] at hc
        | some s => simp [hc]
      · intro _
        simp [hc]
    · rw [Bool.not_eq_true] at hc
      simp [hc]

/-- C3 witness: issuing for `("test-client", "patient/hmcp:read", "p1")`
yields a token whose patient claim is present and equals `"p1"`. -/
theorem patient_claim_present_iff_witness :
    (({ iss := "HMCP_Server", sub := "test-client"
        aud := "https://hmcp-server.example.com", iat := 0, exp := 3600
        scope := "patient/hmcp:read", patient := some "p1" } :
          TokenClaims).patient.isSome =
      (pyTruthy (some "p1") &&
        (pySplit "patient/hmcp:read").any
          (fun s => strStartsWith s "patient/"))) ∧
    (({ iss := "HMCP_Server", sub := "test-client"
        aud := "https://hmcp-server.example.com", iat := 0, exp := 3600
        scope := "patient/hmcp:read", patient := some "p1" } :
          TokenClaims).patient.isSome = true →
      ({ iss := "HMCP_Server", sub := "test-client"
         aud := "https://hmcp-server.example.com", iat := 0, exp := 3600
         scope := "patient/hmcp:read", patient := some "p1" } :
           TokenClaims).patient = some "p1") :=
  patient_claim_present_iff (JWTHandler.init defaultAuthConfig) 0
    "test-client" "patient/hmcp:read" (some "p1") "your-secure-jwt-secret" "HS256"
    { iss := "HMCP_Server", sub := "test-client"
      aud := "https://hmcp-server.example.com", iat := 0, exp := 3600
      scope := "patient/hmcp:read", patient := some "p1" }
    (by decide)

/-- C2 counterexample: at `("test-client", "patient/hmcp:read", "")` the
patient identifier is non-null (`Some ""`) and the scope contains a token
starting with `"patient/"`, so the claim requires the verified claims'
patient to equal `Some ""`; but `if patient_id:` is false for the empty
string, so the round trip yields claims with no patient claim at all. -/
theorem round_trip_empty_patient_cex :
    (some "" : Option String) ≠ none ∧
    (pySplit "patient/hmcp:read").any
        (fun s => strStartsWith s "patient/") = true ∧
    (match generate_token (JWTHandler.init defaultAuthConfig) 0 "test-client"
        "patient/hmcp:read" (some "") with
     | .ok tok => verify_token (JWTHandler.init defaultAuthConfig) 0 tok
     | .error e => .error e) =
      .ok { iss := "HMCP_Server", sub := "test-client"
            aud := "https://hmcp-server.example.com", iat := 0, exp := 3600
            scope := "patient/hmcp:read", patient := none } ∧
    (none : Option String) ≠ some "" := by
  refine ⟨by decide, by decide, by decide, by decide⟩

/-- C2 amended: for every config with a positive expiry, every registered
`client_id`, every scope string and every optional `patient_id`, verifying
immediately after issuing succeeds; the claims' subject equals `client_id`
and scope equals the input scope string, and the patient claim equals
`patient_id` if `patient_id` is non-null AND non-empty AND the scope
string contains a whitespace-split token starting with `"patient/"`, and
is absent otherwise. -/
theorem verify_after_issue_round_trip (cfg : AuthConfig) (now : Nat)
    (cid scope : String) (pid : Option String)
    (hreg : (cfg.ALLOWED_CLIENTS.lookup cid).isSome = true)
    (hexp : 0 < cfg.TOKEN_EXPIRY_HOURS) :
    ∃ tok, generate_token (JWTHandler.init cfg) now cid scope pid = .ok tok ∧
      ∃ claims, verify_token (JWTHandler.init cfg) now tok = .ok claims ∧
        claims.sub = cid ∧ claims.scope = scope ∧
        claims.patient =
          (if pyTruthy pid &&
              (pySplit scope).any (fun s => strStartsWith s "patient/")
           then pid else none) := by
  have hn : (cfg.ALLOWED_CLIENTS.lookup cid).isNone = false := by
    cases h : cfg.ALLOWED_CLIENTS.lookup cid with
    | none => rw [h] at hreg; simp at hreg
    | some _ => rfl
  have hgen : generate_token (JWTHandler.init cfg) now cid scope pid =
      .ok (.signed cfg.JWT_SECRET_KEY cfg.JWT_ALGORITHM
        { iss := cfg.ISSUER, sub := cid, aud := cfg.JWT_AUDIENCE, iat := now
          exp := now + cfg.TOKEN_EXPIRY_HOURS * 3600, scope := scope
          patient :=
            if pyTruthy pid &&
                (pySplit scope).any (fun s => strStartsWith s "patient/")
            then pid else none }) := by
    unfold generate_token JWTHandler.init jwtEncode
    simp [hn]
  refine ⟨_, hgen, ?_⟩
  have hlt : ¬ (now + cfg.TOKEN_EXPIRY_HOURS * 3600 ≤ now) := by omega
  refine ⟨{ iss := cfg.ISSUER, sub := cid, aud := cfg.JWT_AUDIENCE, iat := now
            exp := now + cfg.TOKEN_EXPIRY_HOURS * 3600, scope := scope
            patient :=
              if pyTruthy pid &&
                  (pySplit scope).any (fun s => strStartsWith s "patient/")
              then pid else none }, ?_, rfl, rfl, rfl⟩
  unfold verify_token JWTHandler.init jwtDecode
  simp [hlt]

/-- C2 witness: the round trip at
`("test-client", "patient/hmcp:read", "p1")` under the default config. -/
theorem verify_after_issue_round_trip_witness :
    ∃ tok, generate_token (JWTHandler.init defaultAuthConfig) 0 "test-client"
        "patient/hmcp:read" (some "p1") = .ok tok ∧
      ∃ claims,
        verify_token (JWTHandler.init defaultAuthConfig) 0 tok = .ok claims ∧
        claims.sub = "test-client" ∧ claims.scope = "patient/hmcp:read" ∧
        claims.patient =
          (if pyTruthy (some "p1") &&
              (pySplit "patient/hmcp:read").any
                (fun s => strStartsWith s "patient/")
           then some "p1" else none) :=
  verify_after_issue_round_trip defaultAuthConfig 0 "test-client"
    "patient/hmcp:read" (some "p1") (by decide) (by decide)

/-- C5 counterexample: on a server where `"c1"` is registered with secret
`"s1"`, validating `("c1", "bad")` does not fail at all — no
`InvalidSecret` error exists in the code — it returns `False`. -/
theorem validate_client_bad_secret_cex :
    (((register_client (OAuthServer.init defaultAuthConfig) 0 "c1" "s1"
          none none).oauth_clients.lookup "c1").map
        (fun r => r.secret)) = some "s1" ∧
    "s1" ≠ "bad" ∧
    validate_client
        (register_client (OAuthServer.init defaultAuthConfig) 0 "c1" "s1"
          none none) "c1" "bad" = .ok false := by
  refine ⟨by decide, by decide, by decide⟩

/-- C5 amended: for every registered pair `(client_id, secret)`,
`validate_client` succeeds returning `True`; for an unknown `client_id` it
fails with `ClientValidationError("Invalid client ID")`; and for a
registered `client_id` with a non-matching secret it does not raise — it
returns `False`. -/
theorem validate_client_spec (s : OAuthServer) (cid sec : String) :
    (∀ r, s.oauth_clients.lookup cid = some r → r.secret = sec →
      validate_client s cid sec = .ok true) ∧
    (s.oauth_clients.lookup cid = none →
      validate_client s cid sec =
        .error (.clientValidationError "Invalid client ID")) ∧
    (∀ r, s.oauth_clients.lookup cid = some r → r.secret ≠ sec →
      validate_client s cid sec = .ok false) := by
  refine ⟨?_, ?_, ?_⟩
  · intro r hr hsec
    simp [validate_client, hr, hsec]
  · intro hr
    simp [validate_client, hr]
  · intro r hr hsec
    simp [validate_client, hr, hsec]

/-- C5 witness: on a concrete server with `"c1"`/`"s1"` registered, the
matching pair validates to `True`, an unknown client errors, and a wrong
secret returns `False`. -/
theorem validate_client_spec_witness :
    validate_client
        (register_client (OAuthServer.init defaultAuthConfig) 0 "c1" "s1"
          none none) "c1" "s1" = .ok true ∧
    validate_client
        (register_client (OAuthServer.init defaultAuthConfig) 0 "c1" "s1"
          none none) "nobody" "s1" =
      .error (.clientValidationError "Invalid client ID") ∧
    validate_client
        (register_client (OAuthServer.init defaultAuthConfig) 0 "c1" "s1"
          none none) "c1" "wrong" = .ok false :=
  ⟨(validate_client_spec
      (register_client (OAuthServer.init defaultAuthConfig) 0 "c1" "s1"
        none none) "c1" "s1").1
      { secret := "s1", created_at := 0, redirect_uris := []
        allowed_scopes := ["hmcp:access"] } (by decide) (by decide),
   (validate_client_spec
      (register_client (OAuthServer.init defaultAuthConfig) 0 "c1" "s1"
        none none) "nobody" "s1").2.1 (by decide),
   (validate_client_spec
      (register_client (OAuthServer.init defaultAuthConfig) 0 "c1" "s1"
        none none) "c1" "wrong").2.2
      { secret := "s1", created_at := 0, redirect_uris := []
        allowed_scopes := ["hmcp:access"] } (by decide) (by decide)⟩

/-- C6 counterexample: after `register_client("new-client", "sec")` the
client is in the Credential Store (`oauth_clients`), yet issuance via
`create_token` still fails with `ClientValidationError` — `generate_token`
consults only the static `config.ALLOWED_CLIENTS`, never the registry that
`register_client` populates. -/
theorem create_token_registered_client_cex :
    (((register_client (OAuthServer.init defaultAuthConfig) 0 "new-client"
          "sec" none none).oauth_clients.lookup "new-client").isSome =
      true) ∧
    create_token
        (register_client (OAuthServer.init defaultAuthConfig) 0 "new-client"
          "sec" none none) 0 "new-client" "hmcp:access" none =
      .error (.clientValidationError
        "Client new-client is not registered") := by
  refine ⟨by decide, by decide⟩

/-- C6 amended: issuance fails with `ClientValidationError` exactly for a
`client_id` outside the statically configured `ALLOWED_CLIENTS` of the
handler's config; for a `client_id` in `ALLOWED_CLIENTS` it succeeds.  The
`oauth_clients` registry populated by `register_client` is not consulted
at issuance. -/
theorem create_token_checks_allowed_clients (s : OAuthServer) (now : Nat)
    (cid scope : String) (pid : Option String) :
    (s.jwt_handler.config.ALLOWED_CLIENTS.lookup cid = none →
      create_token s now cid scope pid =
        .error (.clientValidationError
          ("Client " ++ cid ++ " is not registered"))) ∧
    ((s.jwt_handler.config.ALLOWED_CLIENTS.lookup cid).isSome = true →
      ∃ resp, create_token s now cid scope pid = .ok resp) := by
  constructor
  · intro hr
    simp [create_token, generate_token, hr]
  · intro hr
    have hn : (s.jwt_handler.config.ALLOWED_CLIENTS.lookup cid).isNone = false := by
      cases h : s.jwt_handler.config.ALLOWED_CLIENTS.lookup cid with
      | none => rw [h] at hr; simp at hr
      | some _ => rfl
    refine ⟨{ access_token :=
                .signed s.jwt_handler.config.JWT_SECRET_KEY
                  s.jwt_handler.config.JWT_ALGORITHM
                  { iss := s.jwt_handler.config.ISSUER, sub := cid
                    aud := s.jwt_handler.config.JWT_AUDIENCE, iat := now
                    exp := now + s.jwt_handler.config.TOKEN_EXPIRY_HOURS * 3600
                    scope := scope
                    patient :=
                      if pyTruthy pid &&
                          (pySplit scope).any
                            (fun p => strStartsWith p "patient/")
                      then pid else none }
              token_type := "Bearer"
              expires_in := s.config.TOKEN_EXPIRY_HOURS * 3600
              scope := scope
              patient := if pyTruthy pid then pid else none }, ?_⟩
    unfold create_token generate_token jwtEncode
    simp [hn]

/-- C6 witness: under the default config, issuance for the never-registered
`"ghost-client"` errors, while `"test-client"` (in `ALLOWED_CLIENTS`, never
passed to `register_client`) succeeds. -/
theorem create_token_checks_allowed_clients_witness :
    (create_token (OAuthServer.init defaultAuthConfig) 0 "ghost-client"
        "hmcp:access" none =
      .error (.clientValidationError
        "Client ghost-client is not registered")) ∧
    ∃ resp, create_token (OAuthServer.init defaultAuthConfig) 0 "test-client"
        "hmcp:access" none = .ok resp :=
  ⟨(create_token_checks_allowed_clients (OAuthServer.init defaultAuthConfig)
      0 "ghost-client" "hmcp:access" none).1 (by decide),
   (create_token_checks_allowed_clients (OAuthServer.init defaultAuthConfig)
      0 "test-client" "hmcp:access" none).2 (by decide)⟩

/-- Helper: a request off the issuance path whose header parses and whose
token verifies reaches the post-verification part of `dispatch` (client
check, scope check, patient-context check). -/
theorem dispatch_verified (cfg : AuthConfig)
    (verify : String → Except AuthError TokenClaims) (req : Request)
    (hdr tkn : String) (payload : TokenClaims)
    (h1 : req.path ≠ cfg.OAUTH_TOKEN_URL)
    (h2 : req.authorization = some hdr)
    (h3 : parse_auth_header hdr = .ok tkn)
    (h4 : verify tkn = .ok payload) :
    dispatch cfg verify req =
      (if payload.sub = "" ∨ (cfg.ALLOWED_CLIENTS.lookup payload.sub).isNone
       then .deny "Invalid client ID" 401
       else
        match cfg.ALLOWED_CLIENTS.lookup payload.sub with
        | none => .deny "Invalid client ID" 401
        | some entry =>
          if ¬ entry.scopes.all
              (fun s => (pySplit payload.scope).contains s) then
            .deny "Insufficient scope" 403
          else if (pySplit payload.scope).any
                (fun s => strStartsWith s "patient/") &&
              ¬ pyTruthy payload.patient then
            .deny "Patient-context scopes require patient ID" 403
          else
            .allow payload.sub (pySplit payload.scope)
              (if pyTruthy payload.patient then payload.patient else none)) := by
  unfold dispatch
  rw [if_neg h1, h2]
  simp only [h3, h4]

/-- C1: for every request carrying a verified token whose subject is a
registered client, the decision engine returns ALLOW only if every scope
in that client's statically configured `required_scopes` appears in the
token's split scope list; and if any required scope is missing, the
outcome is DENY `"Insufficient scope"` with status 403. -/
theorem scope_subset_law (cfg : AuthConfig)
    (verify : String → Except AuthError TokenClaims) (req : Request)
    (hdr tkn : String) (payload : TokenClaims) (entry : ClientEntry)
    (h1 : req.path ≠ cfg.OAUTH_TOKEN_URL)
    (h2 : req.authorization = some hdr)
    (h3 : parse_auth_header hdr = .ok tkn)
    (h4 : verify tkn = .ok payload)
    (h5 : cfg.ALLOWED_CLIENTS.lookup payload.sub = some entry) :
    (∀ cid scopes pid, dispatch cfg verify req = .allow cid scopes pid →
      ∀ scp ∈ entry.scopes, scp ∈ scopes) ∧
    (payload.sub ≠ "" →
      ¬ (∀ scp ∈ entry.scopes, scp ∈ pySplit payload.scope) →
      dispatch cfg verify req = .deny "Insufficient scope" 403) := by
  rw [dispatch_verified cfg verify req hdr tkn payload h1 h2 h3 h4]
  constructor
  · intro cid scopes pid hallow scp hscp
    split at hallow
    · exact absurd hallow (by simp)
    · rw [h5] at hallow
      simp only at hallow
      split at hallow
      · exact absurd hallow (by simp)
      · next hall =>
        rw [not_not] at hall
        split at hallow
        · exact absurd hallow (by simp)
        · rw [Outcome.allow.injEq] at hallow
          obtain ⟨-, rfl, -⟩ := hallow
          have := List.all_eq_true.mp hall scp hscp
          simpa using this
  · intro hsub hmiss
    rw [if_neg (by simp [hsub, h5]), h5]
    simp only
    rw [if_pos]
    intro hall
    exact hmiss (fun scp hscp => by simpa using List.all_eq_true.mp hall scp hscp)

/-- C1 witness: under the default config, a verified token for
`test-client` carrying only scope `"other"` (missing the required
`"hmcp:access"`) is denied with `"Insufficient scope"` and status 403. -/
theorem scope_subset_law_witness :
    dispatch defaultAuthConfig
        (fun _ => .ok { iss := "HMCP_Server", sub := "test-client"
                        aud := "https://hmcp-server.example.com", iat := 0
                        exp := 3600, scope := "other", patient := none })
        { path := "/mcp", authorization := some "Bearer tok" } =
      .deny "Insufficient scope" 403 :=
  (scope_subset_law defaultAuthConfig
      (fun _ => .ok { iss := "HMCP_Server", sub := "test-client"
                      aud := "https://hmcp-server.example.com", iat := 0
                      exp := 3600, scope := "other", patient := none })
      { path := "/mcp", authorization := some "Bearer tok" }
      "Bearer tok" "tok"
      { iss := "HMCP_Server", sub := "test-client"
        aud := "https://hmcp-server.example.com", iat := 0
        exp := 3600, scope := "other", patient := none }
      { secret := "test-secret", scopes := ["hmcp:access"] }
      (by decide) rfl (by decide) rfl (by decide)).2 (by decide)
    (by decide)

/-- C8: a request off the issuance path with no `Authorization` header is
denied with `"No authorization header provided"` and status 401, and the
outcome is the same for every verification function — token parsing and
verification are never invoked, since the missing-header branch terminates
`dispatch` before any token is extracted; and a request targeting the
configured issuance endpoint is passed through without authentication for
every header and every verification function. -/
theorem missing_header_denied_and_issuance_bypassed (cfg : AuthConfig)
    (verify verify' : String → Except AuthError TokenClaims) (req : Request) :
    (req.path ≠ cfg.OAUTH_TOKEN_URL → req.authorization = none →
      dispatch cfg verify req = .deny "No authorization header provided" 401 ∧
      dispatch cfg verify req = dispatch cfg verify' req) ∧
    (req.path = cfg.OAUTH_TOKEN_URL → dispatch cfg verify req = .next) := by
  constructor
  · intro h1 h2
    constructor
    · unfold dispatch
      rw [if_neg h1, h2]
    · unfold dispatch
      rw [h2]
  · intro h1
    unfold dispatch
    rw [if_pos h1]

/-- C8 witness: under the default config, a headerless request to `/mcp`
is denied 401 independently of two different verifiers, and any request to
`/oauth/token` passes through. -/
theorem missing_header_denied_and_issuance_bypassed_witness :
    (dispatch defaultAuthConfig (fun _ => .error (.invalidTokenError "x"))
        { path := "/mcp", authorization := none } =
      .deny "No authorization header provided" 401 ∧
     dispatch defaultAuthConfig (fun _ => .error (.invalidTokenError "x"))
        { path := "/mcp", authorization := none } =
      dispatch defaultAuthConfig
        (fun _ => .ok { iss := "", sub := "", aud := "", iat := 0, exp := 0
                        scope := "", patient := none })
        { path := "/mcp", authorization := none }) ∧
    dispatch defaultAuthConfig (fun _ => .error (.invalidTokenError "x"))
        { path := "/oauth/token", authorization := some "garbage" } = .next :=
  ⟨(missing_header_denied_and_issuance_bypassed defaultAuthConfig
      (fun _ => .error (.invalidTokenError "x"))
      (fun _ => .ok { iss := "", sub := "", aud := "", iat := 0, exp := 0
                      scope := "", patient := none })
      { path := "/mcp", authorization := none }).1 (by decide) rfl,
   (missing_header_denied_and_issuance_bypassed defaultAuthConfig
      (fun _ => .error (.invalidTokenError "x"))
      (fun _ => .error (.invalidTokenError "x"))
      { path := "/oauth/token", authorization := some "garbage" }).2 rfl⟩

/-- C9 counterexample: a verified token with a `"patient/"` scope whose
patient claim IS present but equal to `""` is nevertheless denied with 403
— `if not patient_id:` treats the present-but-empty claim as missing, so
"if a patient claim is present, this check passes" fails. -/
theorem patient_context_empty_claim_cex :
    (some "" : Option String).isSome = true ∧
    dispatch defaultAuthConfig
        (fun _ => .ok { iss := "HMCP_Server", sub := "test-client"
                        aud := "https://hmcp-server.example.com", iat := 0
                        exp := 3600, scope := "hmcp:access patient/hmcp:read"
                        patient := some "" })
        { path := "/mcp", authorization := some "Bearer tok" } =
      .deny "Patient-context scopes require patient ID" 403 := by
  refine ⟨by decide, by decide⟩

/-- C9 amended: for every request whose verified token has at least one
split scope starting with `"patient/"` but whose patient claim is absent —
or present but empty, which the code treats the same way — the decision
engine returns DENY `"Patient-context scopes require patient ID"` with
status 403; if a non-empty patient claim is present, the check passes and
the patient id is attached to the authorized-identity context. -/
theorem patient_context_consistency (cfg : AuthConfig)
    (verify : String → Except AuthError TokenClaims) (req : Request)
    (hdr tkn : String) (payload : TokenClaims) (entry : ClientEntry)
    (h1 : req.path ≠ cfg.OAUTH_TOKEN_URL)
    (h2 : req.authorization = some hdr)
    (h3 : parse_auth_header hdr = .ok tkn)
    (h4 : verify tkn = .ok payload)
    (h5 : payload.sub ≠ "")
    (h6 : cfg.ALLOWED_CLIENTS.lookup payload.sub = some entry)
    (h7 : entry.scopes.all (fun s => (pySplit payload.scope).contains s) = true)
    (h8 : (pySplit payload.scope).any (fun s => strStartsWith s "patient/") = true) :
    (¬ pyTruthy payload.patient →
      dispatch cfg verify req =
        .deny "Patient-context scopes require patient ID" 403) ∧
    (∀ p, payload.patient = some p → p ≠ "" →
      dispatch cfg verify req =
        .allow payload.sub (pySplit payload.scope) (some p)) := by
  rw [dispatch_verified cfg verify req hdr tkn payload h1 h2 h3 h4]
  rw [if_neg (by simp [h5, h6]), h6]
  simp only
  rw [if_neg (not_not_intro h7)]
  constructor
  · intro hpat
    rw [if_pos (by simp [h8, hpat])]
  · intro p hp hne
    have hpat : pyTruthy payload.patient = true := by
      rw [hp]
      simpa [pyTruthy] using hne
    rw [if_neg (by simp [hpat]), if_pos hpat, hp]

/-- C9 witness: a verified `test-client` token with scopes
`"hmcp:access patient/hmcp:read"` and no patient claim is denied 403,
while the same token with patient claim `"p1"` is allowed with `"p1"`
attached. -/
theorem patient_context_consistency_witness :
    (dispatch defaultAuthConfig
        (fun _ => .ok { iss := "HMCP_Server", sub := "test-client"
                        aud := "https://hmcp-server.example.com", iat := 0
                        exp := 3600, scope := "hmcp:access patient/hmcp:read"
                        patient := none })
        { path := "/mcp", authorization := some "Bearer tok" } =
      .deny "Patient-context scopes require patient ID" 403) ∧
    (dispatch defaultAuthConfig
        (fun _ => .ok { iss := "HMCP_Server", sub := "test-client"
                        aud := "https://hmcp-server.example.com", iat := 0
                        exp := 3600, scope := "hmcp:access patient/hmcp:read"
                        patient := some "p1" })
        { path := "/mcp", authorization := some "Bearer tok" } =
      .allow "test-client" (pySplit "hmcp:access patient/hmcp:read")
        (some "p1")) :=
  ⟨(patient_context_consistency defaultAuthConfig
      (fun _ => .ok { iss := "HMCP_Server", sub := "test-client"
                      aud := "https://hmcp-server.example.com", iat := 0
                      exp := 3600, scope := "hmcp:access patient/hmcp:read"
                      patient := none })
      { path := "/mcp", authorization := some "Bearer tok" }
      "Bearer tok" "tok"
      { iss := "HMCP_Server", sub := "test-client"
        aud := "https://hmcp-server.example.com", iat := 0
        exp := 3600, scope := "hmcp:access patient/hmcp:read"
        patient := none }
      { secret := "test-secret", scopes := ["hmcp:access"] }
      (by decide) rfl (by decide) rfl (by decide) (by decide) (by decide)
      (by decide)).1 (by decide),
   (patient_context_consistency defaultAuthConfig
      (fun _ => .ok { iss := "HMCP_Server", sub := "test-client"
                      aud := "https://hmcp-server.example.com", iat := 0
                      exp := 3600, scope := "hmcp:access patient/hmcp:read"
                      patient := some "p1" })
      { path := "/mcp", authorization := some "Bearer tok" }
      "Bearer tok" "tok"
      { iss := "HMCP_Server", sub := "test-client"
        aud := "https://hmcp-server.example.com", iat := 0
        exp := 3600, scope := "hmcp:access patient/hmcp:read"
        patient := some "p1" }
      { secret := "test-secret", scopes := ["hmcp:access"] }
      (by decide) rfl (by decide) rfl (by decide) (by decide) (by decide)
      (by decide)).2 "p1" rfl (by decide)⟩

end HMCP
